import Mathlib

/-!
Verification of the document OCR + extraction pipeline in `streamlit_app.py`.

The program has two core functions:

* `perform_ocr(file_bytes, file_type)` — decodes a single image or converts a
  PDF to a list of page images, runs Tesseract OCR per page, and joins the
  per-page texts (with page markers when more than one page exists) into one
  string, finally applying Python `str.strip()`.
* `analyze_text_with_ai(text, api_key)` — checks preconditions, calls the
  Gemini API exactly once, strips an optional fenced-code wrapper from the
  response, parses it as JSON, and signals every failure in-band as a
  dictionary containing the key "Erro".

External boundaries (PIL decoding, pdf2image, pytesseract, the Gemini client
and Python `json.loads`) are modelled as oracle parameters; everything else is
translated directly from the source.
-/

set_option maxRecDepth 8192

/-- Python whitespace characters recognised by `str.strip()` and `\s`
(ASCII range, which is all that occurs here). -/
def isPyWs (c : Char) : Bool :=
  c = ' ' || c = '\t' || c = '\n' || c = '\r' || c = '\x0b' || c = '\x0c'

/-- Python `s.strip()`: drop leading and trailing whitespace. -/
def pystrip (s : List Char) : List Char :=
  ((s.dropWhile isPyWs).reverse.dropWhile isPyWs).reverse

/-- PIL image color modes relevant to the program. -/
inductive ImageMode
  | RGB | RGBA | P | L | LA | CMYK | bilevel
deriving DecidableEq

/-- A decoded PIL image: an identifier for the underlying pixel data plus its
color mode (the only attribute the program branches on). -/
structure PILImage where
  id : Nat
  mode : ImageMode
deriving DecidableEq

/-- Source lines 49-54: `image.convert('RGB')` is applied when the decoded
mode is RGBA, P (palette) or L (grayscale); any other mode passes through. -/
def convertForOCR (img : PILImage) : PILImage :=
  match img.mode with
  | .RGBA => ⟨img.id, .RGB⟩
  | .P => ⟨img.id, .RGB⟩
  | .L => ⟨img.id, .RGB⟩
  | m => ⟨img.id, m⟩

/-- Whether a color mode carries an alpha channel. -/
def hasAlphaMode : ImageMode → Bool
  | .RGBA => true
  | .LA => true
  | _ => false

/-- Outcome of `convert_from_bytes` on the PDF bytes: a page list, or an
exception (poppler missing / conversion failure). -/
inductive PdfConvResult
  | pages (imgs : List PILImage)
  | convErr
deriving DecidableEq

/-- Outcome of one `pytesseract.image_to_string` call. -/
inductive OCROutcome
  | ok (t : List Char)
  | tesseractNotFound
  | tesseractError
  | genericError
deriving DecidableEq

/-- The declared MIME type switch of `perform_ocr`. -/
inductive FileType
  | png | jpeg | jpg | pdf | other
deriving DecidableEq

/-- Environment of one `perform_ocr` run: the decoded image for image inputs,
the pdf2image outcome for PDF inputs, and the per-page-index OCR outcome. -/
structure OCREnv where
  decodeImage : PILImage
  pdfConvert : PdfConvResult
  ocr : Nat → OCROutcome

/-- Source lines 46-81: the `images_to_process` list. Image inputs decode and
mode-convert once, giving exactly one image. PDF inputs take the pdf2image
pages, where an exception or an empty page list returns the failure value
`None, None` (modelled as `none`). Unsupported types fail at once. -/
def imagesToProcess (ft : FileType) (env : OCREnv) : Option (List PILImage) :=
  match ft with
  | .png | .jpeg | .jpg => some [convertForOCR env.decodeImage]
  | .pdf =>
    match env.pdfConvert with
    | .convErr => none
    | .pages [] => none
    | .pages ps => some ps
  | .other => none

/-- Source line 97: the page entry appended on OCR success; the marker
prefix appears only when more than one image is processed. -/
def pageEntry (multi : Bool) (i : Nat) (t : List Char) : List Char :=
  if multi then "--- Página ".data ++ (Nat.repr (i+1)).data ++ " ---\n".data ++ t
  else t

/-- Source lines 105 and 108: the entry appended when the engine call on
image `i` raises `TesseractError` or a generic exception. -/
def pageErrEntry (i : Nat) : List Char :=
  "--- Página ".data ++ (Nat.repr (i+1)).data ++ ": Erro no OCR ---".data

/-- Source lines 90-108: the OCR loop over image indices `start, start+1, …`
(`len` images remain). Success appends a `pageEntry`, `TesseractError` and
generic exceptions append a `pageErrEntry`, and `TesseractNotFoundError`
aborts the whole run (`return None, None`). -/
def ocrLoopFrom (oc : Nat → OCROutcome) (multi : Bool) : Nat → Nat → Option (List (List Char))
  | _, 0 => some []
  | i, k+1 =>
    match oc i with
    | .tesseractNotFound => none
    | .ok t => (ocrLoopFrom oc multi (i+1) k).map (fun rest => pageEntry multi i t :: rest)
    | .tesseractError => (ocrLoopFrom oc multi (i+1) k).map (fun rest => pageErrEntry i :: rest)
    | .genericError => (ocrLoopFrom oc multi (i+1) k).map (fun rest => pageErrEntry i :: rest)

/-- What `perform_ocr` returns: the display image and the extracted text,
each `None` on the corresponding failure paths. -/
structure OCRRunResult where
  display : Option PILImage
  text : Option (List Char)
deriving DecidableEq

/-- Source lines 34-111: `perform_ocr`. Build `images_to_process`, run the
OCR loop with the multi-page flag `len(images_to_process) > 1`, and return
`"\n\n".join(full_text_list)` stripped, together with the first image as the
display image. -/
def perform_ocr (ft : FileType) (env : OCREnv) : OCRRunResult :=
  match imagesToProcess ft env with
  | none => ⟨none, none⟩
  | some imgs =>
    match ocrLoopFrom env.ocr (decide (1 < imgs.length)) 0 imgs.length with
    | none => ⟨none, none⟩
    | some entries => ⟨imgs.head?, some (pystrip (List.intercalate "\n\n".data entries))⟩

/-- A Python JSON value, as produced by `json.loads`. -/
inductive Json
  | null
  | bool (b : Bool)
  | num (n : Int)
  | str (s : List Char)
  | arr (xs : List Json)
  | obj (kvs : List (List Char × Json))

/-- Membership of a key in the field list of a Python dict. -/
def keyMem (k : List Char) : List (List Char × Json) → Bool
  | [] => false
  | (k', _) :: rest => k' = k || keyMem k rest

/-- The key under which every failure of `analyze_text_with_ai` is signalled. -/
def erroKey : List Char := "Erro".data

/-- A failure dictionary `{"Erro": msg}` as returned on every error path of
`analyze_text_with_ai`. -/
def erro (msg : List Char) : Json := .obj [(erroKey, .str msg)]

/-- Source lines 357 and 384: the callers classify an analysis result as a
failure exactly when it `isinstance(-, dict)` and contains the key "Erro". -/
def analysisFailed : Json → Bool
  | .obj kvs => keyMem erroKey kvs
  | _ => false

/-- The fenced-code opener matched (case-insensitively) by the first
`re.sub` at source line 209. -/
def fenceLead : List Char := "\x60\x60\x60json".data

/-- Source line 209: `re.sub(r'^```json\s*', '', s, flags=re.IGNORECASE)` —
if the string starts with the 7-character opener (case-insensitive), remove
it together with the following whitespace run. -/
def stripLeadFence (s : List Char) : List Char :=
  if (s.take 7).map Char.toLower = fenceLead then (s.drop 7).dropWhile isPyWs else s

/-- Source line 210: `re.sub(r'\s*```$', '', s)` — if the string ends with
three backticks, remove them together with the preceding whitespace run. -/
def stripTrailFence (s : List Char) : List Char :=
  if s.reverse.take 3 = "\x60\x60\x60".data then
    ((s.reverse.drop 3).dropWhile isPyWs).reverse
  else s

/-- Source lines 209-210 combined: each `re.sub` is applied to the result of
`response_text.strip()`. -/
def clean_response (s : List Char) : List Char :=
  stripTrailFence (pystrip (stripLeadFence (pystrip s)))

/-- Wrapping a response in a single leading/trailing fenced code block. -/
def wrapFence (s : List Char) : List Char :=
  "\x60\x60\x60json\n".data ++ s ++ "\n\x60\x60\x60".data

/-- Outcome of one `model.generate_content` call, as observed by the
`try/except` of source lines 185-247. The `GoogleAPIError` subclasses all
carry free-form detail text. -/
inductive ApiOutcome
  | ok (responseText : List Char)
  | noText
  | notFound (d : List Char)
  | permissionDenied (d : List Char)
  | invalidArgument (d : List Char)
  | resourceExhausted (d : List Char)
  | deadlineExceeded (d : List Char)
  | otherApi (d : List Char)
  | genericError (d : List Char)

/-- Environment of one `analyze_text_with_ai` run: library availability,
whether `genai.configure` raises, the outcome of the n-th
`generate_content` call, and Python `json.loads` (`none` = JSONDecodeError). -/
structure GeminiEnv where
  genaiAvailable : Bool
  configureFails : Option (List Char)
  call : Nat → ApiOutcome
  jloads : List Char → Option Json

/-- Message of source line 142. -/
def msgNoKey : List Char := "Chave da API do Gemini não fornecida.".data

/-- Message of source line 145. -/
def msgShortText : List Char := "Texto de entrada inválido ou muito curto para análise.".data

/-- Message of source line 139 (library import failed). -/
def msgNoLib : List Char := "Biblioteca google-generativeai indisponível.".data

/-- Message of source line 206. -/
def msgBadStructure : List Char := "Estrutura de resposta da API inesperada.".data

/-- Message of source line 220. -/
def msgJsonFail : List Char := "Falha ao processar JSON da API. Verifique a resposta acima.".data

/-- Message prefix of source line 152. -/
def msgConfigPre : List Char := "Falha ao configurar API Gemini: ".data

/-- Message prefix of source line 241 (all GoogleAPIError classes). -/
def msgApiPre : List Char := "Erro na API Google: ".data

/-- Message prefix of source line 247 (generic exception). -/
def msgGenericPre : List Char := "Erro na API Gemini: ".data

/-- Source lines 131-247: `analyze_text_with_ai(text, api_key)`. Returns the
Python value the function returns, paired with the number of
`generate_content` network calls made. Precondition failures and the
configure failure return before any network call; the API is called exactly
once; every failure path returns a dict containing the key "Erro"; the
success path returns `json.loads` of the fence-stripped response text. -/
def analyze_text_with_ai (text api_key : List Char) (env : GeminiEnv) : Json × Nat :=
  if !env.genaiAvailable then (erro msgNoLib, 0)
  else if api_key = [] then (erro msgNoKey, 0)
  else if text = [] || decide ((pystrip text).length < 10) then (erro msgShortText, 0)
  else
    match env.configureFails with
    | some m => (erro (msgConfigPre ++ m), 0)
    | none =>
      match env.call 0 with
      | .ok t =>
        match env.jloads (clean_response t) with
        | none => (erro msgJsonFail, 1)
        | some v => (v, 1)
      | .noText => (erro msgBadStructure, 1)
      | .notFound d => (erro (msgApiPre ++ d), 1)
      | .permissionDenied d => (erro (msgApiPre ++ d), 1)
      | .invalidArgument d => (erro (msgApiPre ++ d), 1)
      | .resourceExhausted d => (erro (msgApiPre ++ d), 1)
      | .deadlineExceeded d => (erro (msgApiPre ++ d), 1)
      | .otherApi d => (erro (msgApiPre ++ d), 1)
      | .genericError d => (erro (msgGenericPre ++ d), 1)

/-- Source lines 387-397: the `data_map` of schema keys and display labels. -/
def data_map : List (List Char × List Char) :=
  [("data_nascimento".data, "Data de Nascimento".data),
   ("local_nascimento".data, "Local de Nascimento".data),
   ("doc_identidade".data, "Documento de Identidade".data),
   ("orgao_emissor".data, "Órgão Emissor".data),
   ("cpf".data, "CPF".data),
   ("nacionalidade".data, "Nacionalidade".data),
   ("num_registro".data, "Número de Registro".data),
   ("filiacao_mae".data, "Filiação (Mãe)".data),
   ("filiacao_pai".data, "Filiação (Pai)".data)]

/-- Source line 415: `expected_keys = data_map.keys()`. -/
def expected_keys : List (List Char) := data_map.map Prod.fst

/-- Source line 400: the rendering loop iterates over every key of the
returned dict (null values included, displayed as an empty string). -/
def rendered_keys (kvs : List (List Char × Json)) : List (List Char) := kvs.map Prod.fst

/-- Source line 417:
`missing_keys = [data_map[k] for k in expected_keys if k not in returned_keys]`,
stated on the schema keys (the source maps each such key to its display
label, a bijective renaming). -/
def missing_keys_of (returned : List (List Char)) : List (List Char) :=
  expected_keys.filter (fun k => !(decide (k ∈ returned)))

/-- The display labels actually shown at source line 419 for missing keys. -/
def missing_labels_of (returned : List (List Char)) : List (List Char) :=
  (data_map.filter (fun kv => !(decide (kv.1 ∈ returned)))).map Prod.snd

/-- The entry the OCR loop produces for image index `i`. -/
def ocrEntry (oc : Nat → OCROutcome) (multi : Bool) (i : Nat) : List Char :=
  match oc i with
  | .ok t => pageEntry multi i t
  | _ => pageErrEntry i

theorem ocrLoopFrom_eq_map (oc : Nat → OCROutcome) (multi : Bool) (len : Nat) :
    ∀ start, (∀ i, start ≤ i → i < start + len → oc i ≠ .tesseractNotFound) →
    ocrLoopFrom oc multi start len = some ((List.range' start len).map (ocrEntry oc multi)) := by
  induction len with
  | zero => intro start _; simp [ocrLoopFrom, List.range']
  | succ k ih =>
    intro start h
    have h0 : oc start ≠ .tesseractNotFound := h start le_rfl (by omega)
    have hrec := ih (start + 1) (fun i h1 h2 => h i (by omega) (by omega))
    rw [show List.range' start (k+1) = start :: List.range' (start+1) k from
      List.range'_succ start k 1]
    cases hoc : oc start with
    | ok t => simp [ocrLoopFrom, hoc, hrec, ocrEntry]
    | tesseractNotFound => exact absurd hoc h0
    | tesseractError => simp [ocrLoopFrom, hoc, hrec, ocrEntry]
    | genericError => simp [ocrLoopFrom, hoc, hrec, ocrEntry]

theorem head_cons_of_head? {l : List Char} {c : Char} (h : l.head? = some c) :
    ∃ t, l = c :: t := by
  cases l with
  | nil => simp at h
  | cons a t => simp at h; exact ⟨t, by rw [h]⟩

theorem dropWhile_eq_self_of_head {l : List Char} {c : Char}
    (h : l.head? = some c) (hc : isPyWs c = false) : l.dropWhile isPyWs = l := by
  obtain ⟨t, rfl⟩ := head_cons_of_head? h
  exact List.dropWhile_cons_of_neg (by simp [hc])

theorem pystrip_of_drops {l : List Char}
    (h1 : l.dropWhile isPyWs = l) (h2 : l.reverse.dropWhile isPyWs = l.reverse) :
    pystrip l = l := by
  unfold pystrip; rw [h1, h2, List.reverse_reverse]

theorem pystrip_of_ends {l : List Char} {c d : Char}
    (h1 : l.head? = some c) (h2 : isPyWs c = false)
    (h3 : l.getLast? = some d) (h4 : isPyWs d = false) : pystrip l = l :=
  pystrip_of_drops (dropWhile_eq_self_of_head h1 h2)
    (dropWhile_eq_self_of_head (by rw [List.head?_reverse]; exact h3) h4)

/-- Claim C7 counterexample: a grayscale-plus-alpha (`LA`) PNG is a supported
single-image input whose mode has an alpha channel, yet the single produced
page image keeps mode `LA`: it is not normalized to the canonical 3-channel
`RGB` mode, contrary to the claim. -/
theorem alpha_mode_counterexample :
    imagesToProcess .png ⟨⟨0, .LA⟩, .convErr, fun _ => .ok []⟩ = some [⟨0, .LA⟩]
    ∧ hasAlphaMode .LA = true
    ∧ (⟨0, .LA⟩ : PILImage).mode ≠ .RGB := by
  refine ⟨rfl, rfl, by decide⟩

/-- Claim C7 (amended): every supported single-image input produces exactly
one page image; source modes `RGBA`, `P` (palette) and `L` (grayscale) are
normalized to `RGB`, `RGB` stays `RGB`, but other modes (e.g. `LA`,
grayscale with alpha) pass through unconverted. -/
theorem image_mode_normalization :
    (∀ env : OCREnv,
        imagesToProcess .png env = some [convertForOCR env.decodeImage]
      ∧ imagesToProcess .jpeg env = some [convertForOCR env.decodeImage]
      ∧ imagesToProcess .jpg env = some [convertForOCR env.decodeImage])
    ∧ (∀ n, convertForOCR ⟨n, .RGBA⟩ = ⟨n, .RGB⟩
      ∧ convertForOCR ⟨n, .P⟩ = ⟨n, .RGB⟩
      ∧ convertForOCR ⟨n, .L⟩ = ⟨n, .RGB⟩
      ∧ convertForOCR ⟨n, .RGB⟩ = ⟨n, .RGB⟩
      ∧ convertForOCR ⟨n, .LA⟩ = ⟨n, .LA⟩) :=
  ⟨fun _ => ⟨rfl, rfl, rfl⟩, fun _ => ⟨rfl, rfl, rfl, rfl, rfl⟩⟩

/-- Claim C8: a PDF input from which the rasterization engine extracts zero
pages makes `perform_ocr` return the failure value `(None, None)` — never a
success with an empty page sequence. -/
theorem empty_pdf_failure :
    ∀ (dec : PILImage) (oc : Nat → OCROutcome),
      perform_ocr .pdf ⟨dec, .pages [], oc⟩ = ⟨none, none⟩
      ∧ (perform_ocr .pdf ⟨dec, .pages [], oc⟩).text = none :=
  fun _ _ => ⟨rfl, rfl⟩

/-- Claim C9 counterexample: a two-page PDF whose pages both yield empty OCR
text completes successfully, but the combined string is the two page markers,
not the empty string required by the claim. -/
theorem multipage_empty_markers_counterexample :
    (perform_ocr .pdf ⟨⟨0, .RGB⟩, .pages [⟨1, .RGB⟩, ⟨2, .RGB⟩], fun _ => .ok []⟩).text
      = some "--- Página 1 ---\n\n\n--- Página 2 ---".data
    ∧ "--- Página 1 ---\n\n\n--- Página 2 ---".data ≠ ([] : List Char) := by
  refine ⟨rfl, by decide⟩

/-- Claim C9 (amended): all-empty OCR text is success, never the failure
value: a single-image input whose recognition returns the empty string
yields `combined = ""` (distinguishable from the failure value `none`); a
PDF input with any nonempty page list whose pages all yield empty text also
succeeds, its combined string being the stripped join of the bare page-marker
entries alone (the markers themselves when more than one page exists, the
empty string for one page); in particular a two-page all-empty input returns
exactly the two markers. -/
theorem empty_text_success :
    (∀ (dec : PILImage) (pc : PdfConvResult),
      (perform_ocr .png ⟨dec, pc, fun _ => .ok []⟩).text = some []
      ∧ (perform_ocr .png ⟨dec, pc, fun _ => .ok []⟩).text ≠ none)
    ∧ (∀ (dec : PILImage) (pages : List PILImage), pages ≠ [] →
      (perform_ocr .pdf ⟨dec, .pages pages, fun _ => .ok []⟩).text
        = some (pystrip (List.intercalate "\n\n".data
            ((List.range pages.length).map
              (fun i => pageEntry (decide (1 < pages.length)) i []))))
      ∧ (perform_ocr .pdf ⟨dec, .pages pages, fun _ => .ok []⟩).text ≠ none)
    ∧ (∀ (dec p1 p2 : PILImage),
      (perform_ocr .pdf ⟨dec, .pages [p1, p2], fun _ => .ok []⟩).text
        = some "--- Página 1 ---\n\n\n--- Página 2 ---".data) := by
  refine ⟨fun dec pc => ⟨rfl, ?_⟩, ?_, fun _ _ _ => rfl⟩
  · intro h
    rw [show (perform_ocr .png ⟨dec, pc, fun _ => .ok []⟩).text = some [] from rfl] at h
    exact Option.noConfusion h
  · intro dec pages hne
    obtain ⟨p, ps, rfl⟩ : ∃ p ps, pages = p :: ps := by
      cases pages with
      | nil => exact absurd rfl hne
      | cons p ps => exact ⟨p, ps, rfl⟩
    have hloop := ocrLoopFrom_eq_map (fun _ => .ok []) (decide (1 < (p :: ps).length))
      (p :: ps).length 0 (fun i _ _ => by simp)
    have hmap : (List.range' 0 (p :: ps).length).map
        (ocrEntry (fun _ => .ok []) (decide (1 < (p :: ps).length)))
        = (List.range (p :: ps).length).map
          (fun i => pageEntry (decide (1 < (p :: ps).length)) i []) := by
      rw [List.range_eq_range']
      exact List.map_congr_left (fun i _ => by simp [ocrEntry])
    constructor
    · simp only [perform_ocr, imagesToProcess]
      rw [hloop, hmap]
    · simp only [perform_ocr, imagesToProcess]
      rw [hloop]
      simp

/-- Witness for `empty_text_success` at a three-page all-empty input. -/
theorem empty_text_success_witness :
    (perform_ocr .pdf ⟨⟨9, .RGB⟩, .pages [⟨0, .RGB⟩, ⟨1, .RGB⟩, ⟨2, .RGB⟩],
        fun _ => .ok []⟩).text
      = some (pystrip (List.intercalate "\n\n".data
          ((List.range 3).map (fun i => pageEntry (decide (1 < 3)) i []))))
    ∧ (perform_ocr .pdf ⟨⟨9, .RGB⟩, .pages [⟨0, .RGB⟩, ⟨1, .RGB⟩, ⟨2, .RGB⟩],
        fun _ => .ok []⟩).text ≠ none :=
  empty_text_success.2.1 ⟨9, .RGB⟩ [⟨0, .RGB⟩, ⟨1, .RGB⟩, ⟨2, .RGB⟩] (by simp)

/-- Claim C6 counterexample: for the single-page text "a\n" the claim
requires `combined = "a\n"` (page texts joined, marker omitted), but the
source applies `str.strip()` and returns "a". -/
theorem combined_strip_counterexample :
    (perform_ocr .png ⟨⟨0, .RGB⟩, .convErr, fun _ => .ok "a\n".data⟩).text
      = some "a".data
    ∧ "a".data ≠ "a\n".data := by
  refine ⟨rfl, by decide⟩

/-- Claim C2 counterexample: a response containing the schema key "cpf" with
an explicitly null value renders the key as present (the display loop walks
every returned key) and does not classify it missing, contrary to the claim
that explicitly-null keys are classified missing. -/
theorem null_value_key_counterexample :
    ("cpf".data ∈ rendered_keys [("cpf".data, Json.null)])
    ∧ "cpf".data ∉ missing_keys_of (rendered_keys [("cpf".data, Json.null)]) := by
  refine ⟨by decide, by decide⟩

/-- Claim C2 (amended): for every returned key set, a schema key is
classified missing exactly when it is absent from the response — an
explicitly null value counts as present — and every schema key is either
rendered (present in the response) or classified missing, so no key is
silently dropped. -/
theorem missing_keys_absence_only (returned : List (List Char)) :
    ∀ k ∈ expected_keys,
      (k ∈ missing_keys_of returned ↔ k ∉ returned)
      ∧ (k ∈ returned ∨ k ∈ missing_keys_of returned) := by
  intro k hk
  constructor
  · simp [missing_keys_of, List.mem_filter, hk]
  · by_cases h : k ∈ returned
    · exact Or.inl h
    · exact Or.inr (by simp [missing_keys_of, List.mem_filter, hk, h])

/-- Witness for `missing_keys_absence_only` at the empty response. -/
theorem missing_keys_absence_only_witness :
    ("cpf".data ∈ missing_keys_of [] ↔ "cpf".data ∉ ([] : List (List Char)))
    ∧ ("cpf".data ∈ ([] : List (List Char)) ∨ "cpf".data ∈ missing_keys_of []) :=
  missing_keys_absence_only [] "cpf".data (by decide)

/-- Claim C6 (amended): for every PDF whose pages all OCR successfully, the
returned text is the page texts joined in index order by the blank-line
separator, each preceded by a page marker exactly when more than one page
exists, with leading and trailing whitespace stripped from the final result
(`extracted_text.strip()` at source line 111). -/
theorem aggregation_with_strip (dec : PILImage) (pages : List PILImage)
    (oc : Nat → OCROutcome) (texts : Nat → List Char)
    (hne : pages ≠ [])
    (hok : ∀ i, i < pages.length → oc i = .ok (texts i)) :
    (perform_ocr .pdf ⟨dec, .pages pages, oc⟩).text =
      some (pystrip (List.intercalate "\n\n".data
        ((List.range pages.length).map
          (fun i => pageEntry (decide (1 < pages.length)) i (texts i))))) := by
  obtain ⟨p, ps, rfl⟩ : ∃ p ps, pages = p :: ps := by
    cases pages with
    | nil => exact absurd rfl hne
    | cons p ps => exact ⟨p, ps, rfl⟩
  have hloop := ocrLoopFrom_eq_map oc (decide (1 < (p :: ps).length)) (p :: ps).length 0
    (fun i _ h2 => by rw [hok i (by omega)]; simp)
  have hmap : (List.range' 0 (p :: ps).length).map
      (ocrEntry oc (decide (1 < (p :: ps).length)))
      = (List.range (p :: ps).length).map
        (fun i => pageEntry (decide (1 < (p :: ps).length)) i (texts i)) := by
    rw [List.range_eq_range']
    refine List.map_congr_left (fun i hi => ?_)
    have hilt : i < (p :: ps).length := by
      have := List.mem_range'_1.mp hi; omega
    simp [ocrEntry, hok i hilt]
  simp only [perform_ocr, imagesToProcess]
  rw [hloop, hmap]

/-- Witness for `aggregation_with_strip`: two pages with texts "x" and "y". -/
theorem aggregation_with_strip_witness :
    (perform_ocr .pdf ⟨⟨9, .RGB⟩, .pages [⟨0, .RGB⟩, ⟨1, .RGB⟩],
        fun i => .ok (if i = 0 then "x".data else "y".data)⟩).text =
      some (pystrip (List.intercalate "\n\n".data
        ((List.range 2).map
          (fun i => pageEntry (decide (1 < 2)) i (if i = 0 then "x".data else "y".data))))) :=
  aggregation_with_strip ⟨9, .RGB⟩ [⟨0, .RGB⟩, ⟨1, .RGB⟩]
    (fun i => .ok (if i = 0 then "x".data else "y".data))
    (fun i => if i = 0 then "x".data else "y".data)
    (by simp) (fun i _ => rfl)

/-- Claim C1: per-page OCR failure isolation. For a multi-page PDF where the
engine call raises a recognition failure (`TesseractError` or a generic
exception) on page `k` and succeeds on at least one other page — so the
global engine-missing abort (`TesseractNotFoundError`, which cannot co-occur
with a succeeding page) is excluded on every page — the run completes with a
text result (not the failure value), the entry list covers all pages, page
`k` carries the recognition-failure marker (no OCR text), and every
succeeding page contributes its page marker followed by its OCR text. -/
theorem ocr_page_failure_isolation
    (dec : PILImage) (pages : List PILImage) (oc : Nat → OCROutcome)
    (texts : Nat → List Char) (k : Nat)
    (hn : 2 ≤ pages.length) (hk : k < pages.length)
    (hthrow : oc k = .tesseractError ∨ oc k = .genericError)
    (hrec : ∀ i, i < pages.length → oc i ≠ .tesseractNotFound)
    (hsome : ∃ j, j < pages.length ∧ j ≠ k ∧ oc j = .ok (texts j)) :
    (perform_ocr .pdf ⟨dec, .pages pages, oc⟩).text =
      some (pystrip (List.intercalate "\n\n".data
        ((List.range pages.length).map (ocrEntry oc true))))
    ∧ ((List.range pages.length).map (ocrEntry oc true)).length = pages.length
    ∧ ocrEntry oc true k = pageErrEntry k
    ∧ (∀ j, j < pages.length → oc j = .ok (texts j) →
        ocrEntry oc true j = pageEntry true j (texts j)) := by
  obtain ⟨p, ps, rfl⟩ : ∃ p ps, pages = p :: ps := by
    cases pages with
    | nil => simp at hn
    | cons p ps => exact ⟨p, ps, rfl⟩
  have hmulti : decide (1 < (p :: ps).length) = true := decide_eq_true (by omega)
  have hloop := ocrLoopFrom_eq_map oc (decide (1 < (p :: ps).length)) (p :: ps).length 0
    (fun i _ h2 => hrec i (by omega))
  rw [hmulti] at hloop
  refine ⟨?_, by simp, ?_, ?_⟩
  · simp only [perform_ocr, imagesToProcess]
    rw [hmulti, hloop, List.range_eq_range']
  · rcases hthrow with h | h <;> simp [ocrEntry, h]
  · intro j _ hokj
    simp [ocrEntry, hokj]

/-- The OCR oracle of the C1 witness: the engine raises a recognition error
on page index 1 and returns "t" on every other page. -/
def throwOnPage1 : Nat → OCROutcome :=
  fun i => if i = 1 then .tesseractError else .ok "t".data

/-- Witness for `ocr_page_failure_isolation`: three pages where the engine
raises on page index 1 and returns "t" elsewhere. -/
theorem ocr_page_failure_isolation_witness :
    (perform_ocr .pdf ⟨⟨9, .RGB⟩, .pages [⟨0, .RGB⟩, ⟨1, .RGB⟩, ⟨2, .RGB⟩],
        throwOnPage1⟩).text =
      some (pystrip (List.intercalate "\n\n".data
        ((List.range 3).map (ocrEntry throwOnPage1 true))))
    ∧ ((List.range 3).map (ocrEntry throwOnPage1 true)).length = 3
    ∧ ocrEntry throwOnPage1 true 1 = pageErrEntry 1
    ∧ (∀ j, j < 3 → throwOnPage1 j = .ok "t".data →
        ocrEntry throwOnPage1 true j = pageEntry true j "t".data) :=
  ocr_page_failure_isolation ⟨9, .RGB⟩ [⟨0, .RGB⟩, ⟨1, .RGB⟩, ⟨2, .RGB⟩]
    throwOnPage1 (fun _ => "t".data) 1 (by simp) (by simp) (Or.inl rfl)
    (by decide) ⟨0, by decide, by decide, rfl⟩

/-- Claim C5: precondition checks of `analyze_text_with_ai`. With the client
library importable, an empty credential returns the missing-credential error
and an empty or too-short text returns the insufficient-input error, in both
cases with zero network calls made. -/
theorem extraction_preconditions (text api_key : List Char) (env : GeminiEnv)
    (hav : env.genaiAvailable = true) :
    (api_key = [] → analyze_text_with_ai text api_key env = (erro msgNoKey, 0))
    ∧ (api_key ≠ [] → text = [] ∨ (pystrip text).length < 10 →
        analyze_text_with_ai text api_key env = (erro msgShortText, 0)) := by
  constructor
  · intro hkey
    simp [analyze_text_with_ai, hav, hkey]
  · intro hkey hshort
    rcases hshort with h | h
    · simp [analyze_text_with_ai, hav, hkey, h]
    · simp [analyze_text_with_ai, hav, hkey, h]

/-- A sample extraction environment: library present, configuration fine. -/
def sampleEnv : GeminiEnv := ⟨true, none, fun _ => .noText, fun _ => none⟩

/-- Witness for `extraction_preconditions`: empty key, then short text. -/
theorem extraction_preconditions_witness :
    analyze_text_with_ai "0123456789".data [] sampleEnv = (erro msgNoKey, 0)
    ∧ analyze_text_with_ai "short".data "k".data sampleEnv = (erro msgShortText, 0) :=
  ⟨(extraction_preconditions "0123456789".data [] sampleEnv rfl).1 rfl,
   (extraction_preconditions "short".data "k".data sampleEnv rfl).2
     (by decide) (Or.inr (by decide))⟩

/-- An environment whose service returns quota-exceeded on the first two
calls and a parseable success on the third. -/
def quotaEnv : GeminiEnv :=
  ⟨true, none,
   fun n => if n < 2 then .resourceExhausted "q".data
            else .ok "\x7b\"cpf\": \"1\"\x7d".data,
   fun s => if s = "\x7b\"cpf\": \"1\"\x7d".data
            then some (.obj [("cpf".data, .str "1".data)]) else none⟩

/-- Claim C4 counterexample: with a service that returns quota-exceeded twice
and then succeeds, the run does NOT succeed with the third response: the code
performs exactly one call and returns the failure dictionary at once. -/
theorem quota_retry_counterexample :
    analyze_text_with_ai "0123456789".data "k".data quotaEnv
      = (erro (msgApiPre ++ "q".data), 1)
    ∧ analysisFailed (analyze_text_with_ai "0123456789".data "k".data quotaEnv).1 = true := by
  exact ⟨rfl, rfl⟩

/-- Claim C4 (amended): no retries are performed. Every run makes at most one
service call, and both a transient quota-exhaustion outcome and a
non-retriable authentication-failure outcome on that single call make the
function return the corresponding in-band error dictionary immediately. -/
theorem single_call_no_retry (text api_key : List Char) (env : GeminiEnv) (d : List Char) :
    (analyze_text_with_ai text api_key env).2 ≤ 1
    ∧ (env.genaiAvailable = true → api_key ≠ [] → text ≠ [] →
       ¬ (pystrip text).length < 10 → env.configureFails = none →
       (env.call 0 = .resourceExhausted d →
          analyze_text_with_ai text api_key env = (erro (msgApiPre ++ d), 1))
       ∧ (env.call 0 = .permissionDenied d →
          analyze_text_with_ai text api_key env = (erro (msgApiPre ++ d), 1))) := by
  constructor
  · unfold analyze_text_with_ai
    repeat' split
    all_goals simp
  · intro hav hk ht hlen hconf
    constructor
    · intro hcall
      simp [analyze_text_with_ai, hav, hk, ht, hlen, hconf, hcall]
    · intro hcall
      simp [analyze_text_with_ai, hav, hk, ht, hlen, hconf, hcall]

/-- An environment whose single call always reports quota exhaustion. -/
def quotaAlwaysEnv : GeminiEnv :=
  ⟨true, none, fun _ => .resourceExhausted "q".data, fun _ => none⟩

/-- Witness for `single_call_no_retry`: the quota failure is returned after
exactly one call. -/
theorem single_call_no_retry_witness :
    analyze_text_with_ai "0123456789".data "k".data quotaAlwaysEnv
      = (erro (msgApiPre ++ "q".data), 1) :=
  ((single_call_no_retry "0123456789".data "k".data quotaAlwaysEnv "q".data).2
    rfl (by decide) (by decide) (by decide) rfl).1 rfl

theorem analysisFailed_erro (m : List Char) : analysisFailed (erro m) = true := by
  simp [analysisFailed, erro, keyMem]

/-- An environment whose service responds with a JSON object that itself
contains the key "Erro". -/
def erroRespEnv : GeminiEnv :=
  ⟨true, none,
   fun _ => .ok "\x7b\"Erro\": \"x\"\x7d".data,
   fun s => if s = "\x7b\"Erro\": \"x\"\x7d".data
            then some (.obj [("Erro".data, .str "x".data)]) else none⟩

/-- Claim C10: in-band error signalling. Every result of
`analyze_text_with_ai` is either a dictionary containing the key "Erro" (all
failure paths) or exactly the value `json.loads` produced from the cleaned
response text (the success path); the callers classify failure exactly as
"is a dict containing the key Erro"; consequently a successfully parsed
model response whose object itself contains the key "Erro" — as in the
concrete environment `erroRespEnv` — is classified as a pipeline failure,
indistinguishable from one. -/
theorem erro_inband_signaling :
    (∀ (text api_key : List Char) (env : GeminiEnv),
       analysisFailed (analyze_text_with_ai text api_key env).1 = true
       ∨ ∃ t, env.call 0 = .ok t
           ∧ env.jloads (clean_response t) = some (analyze_text_with_ai text api_key env).1)
    ∧ (∀ kvs, analysisFailed (Json.obj kvs) = keyMem erroKey kvs)
    ∧ (analyze_text_with_ai "0123456789".data "k".data erroRespEnv
         = (Json.obj [("Erro".data, Json.str "x".data)], 1)
       ∧ analysisFailed (Json.obj [("Erro".data, Json.str "x".data)]) = true) := by
  refine ⟨?_, fun _ => rfl, rfl, rfl⟩
  intro text api_key env
  by_cases hav : env.genaiAvailable
  case neg =>
    left
    simp [analyze_text_with_ai, hav, analysisFailed_erro]
  case pos =>
  by_cases hk : api_key = []
  · left; simp [analyze_text_with_ai, hav, hk, analysisFailed_erro]
  by_cases hcond : (text = [] ∨ (pystrip text).length < 10)
  · left
    rcases hcond with h | h
    · simp [analyze_text_with_ai, hav, hk, h, analysisFailed_erro]
    · simp [analyze_text_with_ai, hav, hk, h, analysisFailed_erro]
  push_neg at hcond
  obtain ⟨ht, hlen⟩ := hcond
  have hlen' : ¬ (pystrip text).length < 10 := by omega
  cases hconf : env.configureFails with
  | some m =>
    left
    simp [analyze_text_with_ai, hav, hk, ht, hlen', hconf, analysisFailed_erro]
  | none =>
  cases hcall : env.call 0 with
  | ok t =>
    cases hj : env.jloads (clean_response t) with
    | none =>
      left
      simp [analyze_text_with_ai, hav, hk, ht, hlen', hconf, hcall, hj, analysisFailed_erro]
    | some v =>
      right
      refine ⟨t, rfl, ?_⟩
      simp [analyze_text_with_ai, hav, hk, ht, hlen', hconf, hcall, hj]
  | noText => left; simp [analyze_text_with_ai, hav, hk, ht, hlen', hconf, hcall, analysisFailed_erro]
  | notFound d => left; simp [analyze_text_with_ai, hav, hk, ht, hlen', hconf, hcall, analysisFailed_erro]
  | permissionDenied d => left; simp [analyze_text_with_ai, hav, hk, ht, hlen', hconf, hcall, analysisFailed_erro]
  | invalidArgument d => left; simp [analyze_text_with_ai, hav, hk, ht, hlen', hconf, hcall, analysisFailed_erro]
  | resourceExhausted d => left; simp [analyze_text_with_ai, hav, hk, ht, hlen', hconf, hcall, analysisFailed_erro]
  | deadlineExceeded d => left; simp [analyze_text_with_ai, hav, hk, ht, hlen', hconf, hcall, analysisFailed_erro]
  | genericError d => left; simp [analyze_text_with_ai, hav, hk, ht, hlen', hconf, hcall, analysisFailed_erro]
  | otherApi d => left; simp [analyze_text_with_ai, hav, hk, ht, hlen', hconf, hcall, analysisFailed_erro]

/-- Claim C3: fence-stripping round trip. For a response string whose first
character is not whitespace and does not lower-case to a backtick and whose
last character is neither whitespace nor a backtick (true of every string
that parses to a JSON value), the cleaning step maps the fenced-wrapped form
and the unwrapped form to the same string (the content itself), the cleaning
is idempotent on the wrapped form, and therefore any parser sees identical
input for the wrapped and unwrapped responses. -/
theorem fence_strip_round_trip (S : List Char) (c d : Char)
    (hhead : S.head? = some c) (hcws : isPyWs c = false) (hcbt : c.toLower ≠ '\x60')
    (hlast : S.getLast? = some d) (hdws : isPyWs d = false) (hdbt : d ≠ '\x60') :
    clean_response (wrapFence S) = S
    ∧ clean_response S = S
    ∧ clean_response (clean_response (wrapFence S)) = clean_response (wrapFence S)
    ∧ ∀ parse : List Char → Option Json,
        parse (clean_response (wrapFence S)) = parse (clean_response S) := by
  obtain ⟨t0, hS⟩ := head_cons_of_head? hhead
  have hrevS : S.reverse.head? = some d := by rw [List.head?_reverse]; exact hlast
  have hps : pystrip S = S := pystrip_of_ends hhead hcws hlast hdws
  have hnolead : ¬ ((S.take 7).map Char.toLower = fenceLead) := by
    intro hEq
    rw [hS] at hEq
    have h2 : c.toLower :: (t0.take 6).map Char.toLower
        = '\x60':: '\x60':: '\x60':: 'j':: 's':: 'o':: 'n'::[] := hEq
    injection h2 with h3 _
    exact hcbt h3
  have hlf : stripLeadFence S = S := by
    unfold stripLeadFence
    rw [if_neg hnolead]
  have hnotrail : ¬ (S.reverse.take 3 = "\x60\x60\x60".data) := by
    intro hEq
    cases hrev : S.reverse with
    | nil =>
      rw [hrev] at hEq
      simp at hEq
    | cons a tr =>
      rw [hrev] at hEq
      have h2 : a :: tr.take 2 = '\x60':: '\x60':: '\x60'::[] := hEq
      injection h2 with ha _
      rw [hrev] at hrevS
      simp at hrevS
      exact hdbt (by rw [← hrevS]; exact ha)
  have htf : stripTrailFence S = S := by
    unfold stripTrailFence
    rw [if_neg hnotrail]
  have hid : clean_response S = S := by
    unfold clean_response
    rw [hps, hlf, hps, htf]
  have hwrap : wrapFence S
      = '\x60':: '\x60':: '\x60':: 'j':: 's':: 'o':: 'n':: '\n'::(S ++ ('\n':: '\x60':: '\x60':: '\x60'::[])) := by
    unfold wrapFence
    rw [List.append_assoc]
    rfl
  have hrevwrap : (wrapFence S).reverse
      = '\x60':: '\x60':: '\x60':: '\n'::(S.reverse ++ ('\n':: 'n':: 'o':: 's':: 'j':: '\x60':: '\x60':: '\x60'::[])) := by
    unfold wrapFence
    rw [List.reverse_append, List.reverse_append]
    rfl
  have hps1 : pystrip (wrapFence S) = wrapFence S := by
    refine pystrip_of_drops ?_ ?_
    · rw [hwrap]; exact List.dropWhile_cons_of_neg (by decide)
    · rw [hrevwrap]; exact List.dropWhile_cons_of_neg (by decide)
  have hlead : stripLeadFence (wrapFence S) = S ++ ('\n':: '\x60':: '\x60':: '\x60'::[]) := by
    unfold stripLeadFence
    rw [hwrap]
    rw [if_pos (by rfl)]
    rw [show (('\x60':: '\x60':: '\x60':: 'j':: 's':: 'o':: 'n':: '\n'::(S ++ ('\n':: '\x60':: '\x60':: '\x60'::[]))).drop 7)
        = '\n'::(S ++ ('\n':: '\x60':: '\x60':: '\x60'::[])) from rfl]
    rw [List.dropWhile_cons_of_pos (by decide)]
    rw [hS]
    exact List.dropWhile_cons_of_neg (by simp [hcws])
  have hrevSB : (S ++ ('\n':: '\x60':: '\x60':: '\x60'::[])).reverse
      = '\x60':: '\x60':: '\x60':: '\n'::S.reverse := by
    rw [List.reverse_append]
    rfl
  have hps2 : pystrip (S ++ ('\n':: '\x60':: '\x60':: '\x60'::[]))
      = S ++ ('\n':: '\x60':: '\x60':: '\x60'::[]) := by
    refine pystrip_of_drops ?_ ?_
    · rw [hS]; exact List.dropWhile_cons_of_neg (by simp [hcws])
    · rw [hrevSB]; exact List.dropWhile_cons_of_neg (by decide)
  have htrail : stripTrailFence (S ++ ('\n':: '\x60':: '\x60':: '\x60'::[])) = S := by
    unfold stripTrailFence
    rw [hrevSB]
    rw [if_pos (by rfl)]
    rw [show ('\x60':: '\x60':: '\x60':: '\n'::S.reverse).drop 3 = '\n'::S.reverse from rfl]
    rw [List.dropWhile_cons_of_pos (by decide)]
    rw [dropWhile_eq_self_of_head hrevS hdws, List.reverse_reverse]
  have hmain : clean_response (wrapFence S) = S := by
    unfold clean_response
    rw [hps1, hlead, hps2, htrail]
  exact ⟨hmain, hid, by rw [hmain]; exact hid, fun parse => by rw [hmain, hid]⟩

/-- Witness for `fence_strip_round_trip` at the JSON object text
`{"cpf": "1"}`. -/
theorem fence_strip_round_trip_witness :
    clean_response (wrapFence "\x7b\"cpf\": \"1\"\x7d".data) = "\x7b\"cpf\": \"1\"\x7d".data
    ∧ clean_response "\x7b\"cpf\": \"1\"\x7d".data = "\x7b\"cpf\": \"1\"\x7d".data :=
  ⟨(fence_strip_round_trip "\x7b\"cpf\": \"1\"\x7d".data '\x7b' '\x7d'
      rfl (by decide) (by decide) (by decide) (by decide) (by decide)).1,
   (fence_strip_round_trip "\x7b\"cpf\": \"1\"\x7d".data '\x7b' '\x7d'
      rfl (by decide) (by decide) (by decide) (by decide) (by decide)).2.1⟩
